import Mathlib

/-!
Shallow embedding of the configuration subsystem of the repository
(`src/backend/src/services/config.rs` together with the data model in
`src/backend/src/models/config.rs` and the error type in
`src/backend/src/error/mod.rs`).

Modelling conventions:
* `uuid::Uuid` is modelled as `Nat`; every call of `uuid::Uuid::new_v4()`
  in the source becomes an explicit parameter of the embedded function.
* `chrono::DateTime<Utc>` / `.timestamp()` is modelled as `Int`; the clock
  read `chrono::Utc::now()` becomes an explicit `now : Int` parameter
  (one parameter per embedded call; clock reads inside a single service
  call are identified).
* Rust `Result<T, AppError>` becomes `Except AppError T`.
* The database-backed history table (`config_history`) is modelled as an
  explicit `List ConfigHistory` state threaded through the functions that
  the source routes it through.
-/

namespace ConfigService

/-- The `ConfigNodeType` from `models/config.rs`. -/
inductive ConfigNodeType where
  | Leaf
  | Container
  | Tag
  | List
deriving DecidableEq, Repr

/-- The `ValidationRule` from `models/config.rs`. -/
inductive ValidationRule where
  | String (min_length : Option Nat) (max_length : Option Nat) (pattern : Option String)
  | Integer (min : Option Int) (max : Option Int)
  | IpAddress
  | Cidr
  | MacAddress
  | Port
  | Boolean
  | Enum (values : List String)
deriving DecidableEq, Repr

/-- The `ConfigMetadata` from `models/config.rs`. -/
structure ConfigMetadata where
  is_readonly : Bool
  is_required : Bool
  default_value : Option String
  validation : Option ValidationRule
  help_text : Option String
deriving DecidableEq, Repr

/-- The `ConfigNode` from `models/config.rs`: a tree node with an ordered list of
children. Declared as an inductive because the structure is recursive. -/
inductive ConfigNode where
  | mk (id : Nat) (path : String) (name : String) (value : Option String)
      (node_type : ConfigNodeType) (description : Option String)
      (children : List ConfigNode) (metadata : ConfigMetadata)
      (created_at : Int) (updated_at : Int)

def ConfigNode.id : ConfigNode → Nat
  | .mk i _ _ _ _ _ _ _ _ _ => i

def ConfigNode.path : ConfigNode → String
  | .mk _ p _ _ _ _ _ _ _ _ => p

def ConfigNode.name : ConfigNode → String
  | .mk _ _ n _ _ _ _ _ _ _ => n

def ConfigNode.value : ConfigNode → Option String
  | .mk _ _ _ v _ _ _ _ _ _ => v

def ConfigNode.node_type : ConfigNode → ConfigNodeType
  | .mk _ _ _ _ t _ _ _ _ _ => t

def ConfigNode.children : ConfigNode → List ConfigNode
  | .mk _ _ _ _ _ _ cs _ _ _ => cs

mutual
/-- The `ConfigService::count_nodes` from `services/config.rs`:
`1 + node.children.iter().map(count_nodes).sum()`. -/
def count_nodes : ConfigNode → Nat
  | .mk _ _ _ _ _ _ cs _ _ _ => 1 + count_nodes_list cs

/-- The summation over the child list in `count_nodes`. -/
def count_nodes_list : List ConfigNode → Nat
  | [] => 0
  | c :: cs => count_nodes c + count_nodes_list cs
end

/-- Rust `str::to_lowercase`, modelled character-wise over the string data. -/
def toLowerStr (s : String) : String := ⟨s.data.map Char.toLower⟩

/-- Whether the second character list is an initial segment of the first. -/
def startsWithChars : List Char → List Char → Bool
  | _, [] => true
  | [], _ :: _ => false
  | a :: as, b :: bs => a == b && startsWithChars as bs

/-- Whether `n` occurs as a contiguous sublist of `h`. -/
def containsChars (h n : List Char) : Bool :=
  match h with
  | [] => startsWithChars [] n
  | c :: t => startsWithChars (c :: t) n || containsChars t n

/-- Rust `str::contains` (substring containment). -/
def strContains (s sub : String) : Bool := containsChars s.data sub.data

/-- The `AppError` from `error/mod.rs`. -/
inductive AppError where
  | Config (s : String)
  | Database (s : String)
  | Auth (s : String)
  | Forbidden (s : String)
  | Validation (s : String)
  | NotFound (s : String)
  | Internal (s : String)
  | ExternalApi (s : String)
  | Jwt (s : String)
  | HttpClient (s : String)
deriving DecidableEq, Repr

/-- The `Display` impl derived by `thiserror` from the `#[error(...)]`
attributes in `error/mod.rs` (used by `e.to_string()` in
`bulk_config_change`). -/
def AppError.display : AppError → String
  | .Config s => "Configuration error: " ++ s
  | .Database s => "Database error: " ++ s
  | .Auth s => "Authentication error: " ++ s
  | .Forbidden s => "Authorization error: " ++ s
  | .Validation s => "Validation error: " ++ s
  | .NotFound s => "Not found: " ++ s
  | .Internal s => "Internal error: " ++ s
  | .ExternalApi s => "External API error: " ++ s
  | .Jwt s => "JWT error: " ++ s
  | .HttpClient s => "HTTP client error: " ++ s

/-- Rust `format!("{:?}", v)` on an `Option<String>` (inner-quote escaping is
not modelled; no claim depends on it). -/
def optionDebug : Option String → String
  | none => "None"
  | some v => "Some(\"" ++ v ++ "\")"

/-- The `ConfigSnapshot` from `models/config.rs` (`Uuid` as `Nat`,
`DateTime<Utc>` as `Int`). -/
structure ConfigSnapshot where
  id : Nat
  config_tree : ConfigNode
  hash : String
  created_at : Int

/-- The `ConfigChangeType` from `models/config.rs`. -/
inductive ConfigChangeType where
  | Retrieve
  | Configure
  | Generate
  | Rollback
  | Import
deriving DecidableEq, Repr

/-- The `ConfigCommitStatus` from `models/config.rs`. -/
inductive ConfigCommitStatus where
  | Pending
  | Success
  | Failed
  | Partial
deriving DecidableEq, Repr

/-- The `ConfigHistory` from `models/config.rs`. -/
structure ConfigHistory where
  id : Nat
  config_snapshot : ConfigSnapshot
  change_type : ConfigChangeType
  changed_by : String
  changed_at : Int
  description : String
  is_rollback_point : Bool
  commit_status : ConfigCommitStatus

/-- The `ConfigRetrieveRequest` from `models/config.rs`. -/
structure ConfigRetrieveRequest where
  path : Option String
  include_defaults : Bool
  include_readonly : Bool
deriving DecidableEq, Repr

/-- The `ConfigRetrieveResponse` from `models/config.rs`. -/
structure ConfigRetrieveResponse where
  config_tree : ConfigNode
  retrieved_at : Int
  node_count : Nat

/-- The `ConfigSetRequest` from `models/config.rs`. -/
structure ConfigSetRequest where
  path : String
  value : Option String
  validate : Bool
deriving DecidableEq, Repr

/-- The `ConfigDeleteRequest` from `models/config.rs`. -/
structure ConfigDeleteRequest where
  path : String
  validate : Bool
deriving DecidableEq, Repr

/-- The `ConfigSetResponse` from `models/config.rs`. -/
structure ConfigSetResponse where
  success : Bool
  message : String
  changes_made : List String
deriving DecidableEq, Repr

/-- The `ConfigHistoryResponse` from `models/config.rs`. -/
structure ConfigHistoryResponse where
  history : List ConfigHistory
  total_count : Nat

/-- The `ConfigRollbackRequest` from `models/config.rs`. -/
structure ConfigRollbackRequest where
  history_id : Nat
  comment : String
  apply_immediately : Bool
deriving DecidableEq, Repr

/-- The `ConfigRollbackResponse` from `models/config.rs`. -/
structure ConfigRollbackResponse where
  success : Bool
  message : String
  rolled_back_to : ConfigSnapshot
  new_history_id : Nat

/-- The `DiffChangeType` from `models/config.rs`. -/
inductive DiffChangeType where
  | Added
  | Deleted
  | Modified
deriving DecidableEq, Repr

/-- The `ConfigChange` from `models/config.rs`. -/
structure ConfigChange where
  path : String
  old_value : Option String
  new_value : Option String
  change_type : DiffChangeType
deriving DecidableEq, Repr

/-- The `BulkConfigChangeRequest` from `models/config.rs`. -/
structure BulkConfigChangeRequest where
  changes : List ConfigSetRequest
  comment : String
  validate : Bool
  stop_on_error : Bool
deriving DecidableEq, Repr

/-- The `ConfigChangeFailure` from `models/config.rs`. -/
structure ConfigChangeFailure where
  path : String
  error : String
deriving DecidableEq, Repr

/-- The `BulkConfigChangeResponse` from `models/config.rs`. -/
structure BulkConfigChangeResponse where
  success : Bool
  message : String
  applied : List String
  failed : List ConfigChangeFailure
deriving DecidableEq, Repr

/-- The `SearchType` from `models/config.rs`. -/
inductive SearchType where
  | Path
  | Value
  | Both
deriving DecidableEq, Repr

/-- The `ConfigSearchRequest` from `models/config.rs`. -/
structure ConfigSearchRequest where
  search_term : String
  search_type : SearchType
  path_filter : Option String
deriving DecidableEq, Repr

/-- The `ConfigSearchResponse` from `models/config.rs`. -/
structure ConfigSearchResponse where
  results : List ConfigNode
  total_count : Nat

/-- The `ConfigService::build_mock_config_tree` from `services/config.rs`: always
returns a single root `Container` node at path `/` with no children.
`now` models `chrono::Utc::now()` and `root_id` models `Uuid::new_v4()`. -/
def build_mock_config_tree (_path_filter : Option String) (now : Int) (root_id : Nat) :
    ConfigNode :=
  .mk root_id "/" "root" none .Container (some "Root configuration node") []
    { is_readonly := false, is_required := false, default_value := none,
      validation := none, help_text := none }
    now now

/-- The `ConfigService::retrieve_config` from `services/config.rs`: builds the mock
tree and counts its nodes; it never fails. -/
def retrieve_config (request : ConfigRetrieveRequest) (now : Int) (root_id : Nat) :
    Except AppError ConfigRetrieveResponse :=
  let root_node := build_mock_config_tree request.path now root_id
  .ok { config_tree := root_node, retrieved_at := now,
        node_count := count_nodes root_node }

/-- The `ConfigService::validate_config_path` from `services/config.rs`: the body is
a TODO stub that returns `Ok(())` unconditionally. -/
def validate_config_path (_path : String) (_value : Option String) :
    Except AppError Unit :=
  .ok ()

/-- The `ConfigService::set_config` from `services/config.rs`. -/
def set_config (request : ConfigSetRequest) : Except AppError ConfigSetResponse :=
  match (if request.validate then validate_config_path request.path request.value
         else .ok ()) with
  | .error e => .error e
  | .ok _ =>
    let changes_made := ["Set " ++ request.path ++ " to " ++ optionDebug request.value]
    .ok { success := true,
          message := "Configuration set at path: " ++ request.path,
          changes_made := changes_made }

/-- The `ConfigService::validate_config_deletion` from `services/config.rs`: the
body is a TODO stub that returns `Ok(())` unconditionally (no existence
check of the path). -/
def validate_config_deletion (_path : String) : Except AppError Unit :=
  .ok ()

/-- The `ConfigService::delete_config` from `services/config.rs`. -/
def delete_config (request : ConfigDeleteRequest) : Except AppError ConfigSetResponse :=
  match (if request.validate then validate_config_deletion request.path
         else .ok ()) with
  | .error e => .error e
  | .ok _ =>
    .ok { success := true,
          message := "Configuration deleted at path: " ++ request.path,
          changes_made := ["Deleted " ++ request.path] }

/-- The `ConfigService::get_history` from `services/config.rs`: the database query
is a TODO stub; the function returns an empty history list. -/
def get_history (_limit : Option Nat) : Except AppError ConfigHistoryResponse :=
  .ok { history := [], total_count := 0 }

/-- The `ConfigService::calculate_config_hash` from `services/config.rs`: the body
is `format!("hash_{}", chrono::Utc::now().timestamp())` — the tree argument is
unused and the result depends only on the clock read, passed here as `now`. -/
def calculate_config_hash (_node : ConfigNode) (now : Int) : String :=
  "hash_" ++ toString now

/-- The `ConfigService::create_config_snapshot` from `services/config.rs`:
retrieves the (mock) full configuration and hashes it. `snap_id` models the
`Uuid::new_v4()` drawn for the snapshot id. -/
def create_config_snapshot (now : Int) (root_id snap_id : Nat) :
    Except AppError ConfigSnapshot :=
  match retrieve_config
      { path := none, include_defaults := true, include_readonly := true }
      now root_id with
  | .error e => .error e
  | .ok config_response =>
    .ok { id := snap_id,
          config_tree := config_response.config_tree,
          hash := calculate_config_hash config_response.config_tree now,
          created_at := now }

/-- The `ConfigService::store_config_history` from `services/config.rs`: the body
only emits a `tracing::info!` log line and returns `Ok(())`; it inserts
nothing into the `config_history` table, so the history store state passes
through unchanged. -/
def store_config_history (_config_snapshot : ConfigSnapshot)
    (_change_type : ConfigChangeType) (_changed_by : String)
    (_description : String) (_is_rollback_point : Bool)
    (_commit_status : ConfigCommitStatus) (store : List ConfigHistory) :
    Except AppError (Unit × List ConfigHistory) :=
  .ok ((), store)

/-- The `ConfigService::get_history_entry` from `services/config.rs`: the database
query is a TODO stub; it fabricates a mock entry around a fresh snapshot. -/
def get_history_entry (history_id : Nat) (now : Int) (root_id snap_id : Nat) :
    Except AppError ConfigHistory :=
  match create_config_snapshot now root_id snap_id with
  | .error e => .error e
  | .ok snapshot =>
    .ok { id := history_id,
          config_snapshot := snapshot,
          change_type := .Generate,
          changed_by := "system",
          changed_at := now,
          description := "Mock history entry",
          is_rollback_point := false,
          commit_status := .Success }

/-- The `ConfigService::rollback_config` from `services/config.rs`. The history
store (`config_history` table) is threaded explicitly; `rid1 sid1` are the
uuids drawn inside `get_history_entry`, `rid2 sid2` those of the second
`create_config_snapshot`, and `new_history_id` models the
`uuid::Uuid::new_v4()` for the response. The `apply_immediately` field of the
request is never read by the source body. -/
def rollback_config (request : ConfigRollbackRequest) (_changed_by : String)
    (now : Int) (rid1 sid1 rid2 sid2 new_history_id : Nat)
    (store : List ConfigHistory) :
    Except AppError (ConfigRollbackResponse × List ConfigHistory) :=
  match get_history_entry request.history_id now rid1 sid1 with
  | .error e => .error e
  | .ok history_entry =>
    match create_config_snapshot now rid2 sid2 with
    | .error e => .error e
    | .ok new_snapshot =>
      match store_config_history new_snapshot .Rollback _changed_by
          request.comment false .Success store with
      | .error e => .error e
      | .ok (_, store2) =>
        .ok ({ success := true,
               message := "Rolled back to configuration from " ++
                 toString history_entry.changed_at,
               rolled_back_to := history_entry.config_snapshot,
               new_history_id := new_history_id }, store2)

/-- The `ConfigService::calculate_diff` from `services/config.rs`: the body is a
TODO stub that returns three empty lists `(additions, deletions,
modifications)` for every pair of trees. -/
def calculate_diff (_tree1 _tree2 : ConfigNode) :
    Except AppError (List ConfigChange × List ConfigChange × List ConfigChange) :=
  .ok ([], [], [])

/-- The `for change in &request.changes` loop of
`ConfigService::bulk_config_change`, abstracted over the per-change call
(the source instantiates it with `set_config`); returns the `applied` and
`failed` accumulators. Rust pushes at the back of each Vec; the recursion
conses at the front and prepends, which yields the same request-order
lists. -/
def bulkGo (f : ConfigSetRequest → Except AppError ConfigSetResponse)
    (stop_on_error : Bool) :
    List ConfigSetRequest → List String × List ConfigChangeFailure
  | [] => ([], [])
  | change :: rest =>
    match f change with
    | .ok _ =>
      let r := bulkGo f stop_on_error rest
      (change.path :: r.1, r.2)
    | .error e =>
      if stop_on_error then
        ([], [{ path := change.path, error := e.display }])
      else
        let r := bulkGo f stop_on_error rest
        (r.1, { path := change.path, error := e.display } :: r.2)

/-- The `ConfigService::bulk_config_change` from `services/config.rs`. -/
def bulk_config_change (request : BulkConfigChangeRequest) (_changed_by : String) :
    Except AppError BulkConfigChangeResponse :=
  let r := bulkGo
    (fun change => set_config
      { path := change.path, value := change.value, validate := request.validate })
    request.stop_on_error request.changes
  let success := r.2.isEmpty
  .ok { success := success,
        message := if success then "All changes applied successfully"
          else "Applied " ++ toString r.1.length ++ " changes, " ++
            toString r.2.length ++ " failed",
        applied := r.1,
        failed := r.2 }

/-- The match condition of `ConfigService::search_in_tree` (written twice in
the source — once for the root node and once, with identical logic, for each
node popped from the stack). `term_lower` is
`request.search_term.to_lowercase()`. -/
def nodeMatches (search_type : SearchType) (term_lower : String)
    (node : ConfigNode) : Bool :=
  match search_type with
  | .Path => strContains (toLowerStr node.path) term_lower
  | .Value =>
    match node.value with
    | some v => strContains (toLowerStr v) term_lower
    | none => false
  | .Both =>
    strContains (toLowerStr node.path) term_lower ||
      (match node.value with
       | some v => strContains (toLowerStr v) term_lower
       | none => false)

/-- The `count_nodes` unfolded through the `children` accessor. -/
theorem count_nodes_eq (n : ConfigNode) :
    count_nodes n = 1 + count_nodes_list n.children := by
  cases n
  rfl

theorem count_nodes_list_append (l1 l2 : List ConfigNode) :
    count_nodes_list (l1 ++ l2) = count_nodes_list l1 + count_nodes_list l2 := by
  induction l1 with
  | nil => simp [count_nodes_list]
  | cons c cs ih =>
    have h1 : count_nodes_list ((c :: cs) ++ l2) =
        count_nodes c + count_nodes_list (cs ++ l2) := rfl
    have h2 : count_nodes_list (c :: cs) =
        count_nodes c + count_nodes_list cs := rfl
    rw [h1, h2, ih]
    omega

theorem count_nodes_list_reverse (l : List ConfigNode) :
    count_nodes_list l.reverse = count_nodes_list l := by
  induction l with
  | nil => rfl
  | cons c cs ih =>
    simp only [List.reverse_cons, count_nodes_list_append, count_nodes_list, ih]
    omega

/-- Replacing the top of the stack by its (reversed) children shrinks the
total node count of the stack: the termination measure of `searchLoop`. -/
theorem count_nodes_lt (child : ConfigNode) (rest : List ConfigNode) :
    count_nodes_list (child.children.reverse ++ rest) <
      count_nodes_list (child :: rest) := by
  rw [count_nodes_list_append, count_nodes_list_reverse]
  have h2 : count_nodes_list (child :: rest) =
      count_nodes child + count_nodes_list rest := rfl
  rw [h2, count_nodes_eq child]
  omega

/-- The `while let Some(child) = children_to_search.pop()` loop of
`ConfigService::search_in_tree`. The Rust stack pops from the back of the
`Vec` and `extend`s at the back; the stack is kept top-first here, so a pop
is the list head and the extend prepends the reversed child list. -/
def searchLoop (m : ConfigNode → Bool) (stack : List ConfigNode)
    (acc : List ConfigNode) : List ConfigNode :=
  match stack with
  | [] => acc
  | child :: rest =>
    searchLoop m (child.children.reverse ++ rest)
      (if m child then acc ++ [child] else acc)
termination_by count_nodes_list stack
decreasing_by
  exact count_nodes_lt _ _

/-- The `ConfigService::search_in_tree` from `services/config.rs`: checks the root
node, then walks all descendants with an explicit stack initialised with the
root's children. -/
def search_in_tree (node : ConfigNode) (request : ConfigSearchRequest) :
    List ConfigNode :=
  let term_lower := toLowerStr request.search_term
  let results := if nodeMatches request.search_type term_lower node
    then [node] else []
  searchLoop (nodeMatches request.search_type term_lower)
    node.children.reverse results

/-- The `ConfigService::search_config` from `services/config.rs`. -/
def search_config (request : ConfigSearchRequest) (now : Int) (root_id : Nat) :
    Except AppError ConfigSearchResponse :=
  match retrieve_config
      { path := request.path_filter, include_defaults := true,
        include_readonly := true } now root_id with
  | .error e => .error e
  | .ok full_config =>
    let results := search_in_tree full_config.config_tree request
    .ok { results := results, total_count := results.length }

mutual
/-- The node visit order that the stack discipline of `search_in_tree`
realises: the node itself, then the subtrees of its children with the last
child first. -/
def revPreorder : ConfigNode → List ConfigNode
  | .mk i p nm v t d cs md ca ua =>
    .mk i p nm v t d cs md ca ua :: revPreorderList cs

/-- Subtree visit order over a child list, last child first. -/
def revPreorderList : List ConfigNode → List ConfigNode
  | [] => []
  | c :: cs => revPreorderList cs ++ revPreorder c
end

mutual
/-- Modelled from the spec: depth-first pre-order over canonical child order
(the traversal order the SearchIndex section of the specification
prescribes) — the node itself, then the subtrees of its children in child
order. -/
def specPreorder : ConfigNode → List ConfigNode
  | .mk i p nm v t d cs md ca ua =>
    .mk i p nm v t d cs md ca ua :: specPreorderList cs

/-- Subtree pre-orders of a child list, in child order. -/
def specPreorderList : List ConfigNode → List ConfigNode
  | [] => []
  | c :: cs => specPreorder c ++ specPreorderList cs
end

/-- Concatenation of the reverse pre-orders of the entries of a stack. -/
def flatRevPre : List ConfigNode → List ConfigNode
  | [] => []
  | x :: xs => revPreorder x ++ flatRevPre xs

theorem revPreorder_eq (n : ConfigNode) :
    revPreorder n = n :: revPreorderList n.children := by
  cases n
  rfl

theorem flatRevPre_append (l1 l2 : List ConfigNode) :
    flatRevPre (l1 ++ l2) = flatRevPre l1 ++ flatRevPre l2 := by
  induction l1 with
  | nil => rfl
  | cons x xs ih =>
    show revPreorder x ++ flatRevPre (xs ++ l2) = _
    rw [ih]
    simp [flatRevPre, List.append_assoc]

theorem revPreorderList_eq_flat (l : List ConfigNode) :
    revPreorderList l = flatRevPre l.reverse := by
  induction l with
  | nil => rfl
  | cons c cs ih =>
    show revPreorderList cs ++ revPreorder c = _
    rw [ih, List.reverse_cons, flatRevPre_append]
    simp [flatRevPre]

/-- What the stack loop of `search_in_tree` computes: the accumulator followed
by the reverse pre-orders of the stack entries, filtered by the match
condition. -/
theorem searchLoop_spec (m : ConfigNode → Bool) (stack acc : List ConfigNode) :
    searchLoop m stack acc = acc ++ (flatRevPre stack).filter m := by
  induction stack, acc using searchLoop.induct m with
  | case1 acc => simp [searchLoop, flatRevPre]
  | case2 acc child rest ih =>
    rw [searchLoop]
    simp only [dite_eq_ite] at ih
    rw [ih, flatRevPre, revPreorder_eq, flatRevPre_append,
      ← revPreorderList_eq_flat]
    by_cases h : m child = true <;>
      simp [h, List.filter_append, List.filter_cons, List.append_assoc]

/-- The `Except.ok`-ness as a boolean, for stating which changes of a bulk
request succeed. -/
def isOkE {α : Type} : Except AppError α → Bool
  | .ok _ => true
  | .error _ => false

/-- Metadata with every flag false and every optional field absent, used by
the concrete example trees below. -/
def emptyMetadata : ConfigMetadata :=
  { is_readonly := false, is_required := false, default_value := none,
    validation := none, help_text := none }

/-- Example leaf at path `/x` with value `1`. -/
def leafX1 : ConfigNode :=
  .mk 20 "/x" "x" (some "1") .Leaf none [] emptyMetadata 0 0

/-- Example leaf at path `/x` with value `2`. -/
def leafX2 : ConfigNode :=
  .mk 21 "/x" "x" (some "2") .Leaf none [] emptyMetadata 0 0

/-- Example leaf at path `/y` with value `3`. -/
def leafY3 : ConfigNode :=
  .mk 22 "/y" "y" (some "3") .Leaf none [] emptyMetadata 0 0

/-- Example snapshot tree `A = {"/x":"1"}` of the specification. -/
def exTreeA : ConfigNode :=
  .mk 23 "/" "root" none .Container none [leafX1] emptyMetadata 0 0

/-- Example snapshot tree `B = {"/x":"2", "/y":"3"}` of the specification. -/
def exTreeB : ConfigNode :=
  .mk 24 "/" "root" none .Container none [leafX2, leafY3] emptyMetadata 0 0

/-- Example leaf at path `/a`. -/
def exA : ConfigNode :=
  .mk 31 "/a" "a" (some "va") .Leaf none [] emptyMetadata 0 0

/-- Example leaf at path `/b`. -/
def exB : ConfigNode :=
  .mk 32 "/b" "b" (some "vb") .Leaf none [] emptyMetadata 0 0

/-- Example tree whose root has the two children `/a` and `/b`, in canonical
order. -/
def exTree : ConfigNode :=
  .mk 30 "/" "root" none .Container none [exA, exB] emptyMetadata 0 0

/-- Example search request: path search for the term `/`, which matches every
node of `exTree`. -/
def exReq : ConfigSearchRequest :=
  { search_term := "/", search_type := .Path, path_filter := none }

/-- Claim C1: `calculate_config_hash` is not a function of the tree at all —
it returns `hash_<clock second>`. Two structurally different trees hashed at
the same clock read collide, the same tree hashed at two different clock
reads yields two different values, and the two example trees really are
structurally different. -/
theorem c1_hash_ignores_tree :
    calculate_config_hash leafX1 0 = calculate_config_hash leafX2 0 ∧
    leafX1 ≠ leafX2 ∧
    calculate_config_hash leafX1 0 ≠ calculate_config_hash leafX1 1 := by
  refine ⟨rfl, fun h => absurd (congrArg ConfigNode.value h) (by decide), by decide⟩

/-- Claim C2: on the specification's Example 3 inputs (`A = {"/x":"1"}`,
`B = {"/x":"2","/y":"3"}`), `calculate_diff` returns three empty lists, not
additions `[/y]` and modifications `[/x: 1→2]` as claimed. -/
theorem c2_diff_stub_empty :
    calculate_diff exTreeA exTreeB = .ok ([], [], []) ∧
    calculate_diff exTreeA exTreeB ≠ .ok
      ([{ path := "/y", old_value := none, new_value := some "3",
          change_type := .Added }],
       [],
       [{ path := "/x", old_value := some "1", new_value := some "2",
          change_type := .Modified }]) := by
  refine ⟨rfl, fun h => ?_⟩
  injection h with h2
  exact absurd h2 (by decide)

/-- Claim C3: for every rollback request with `apply_immediately = false`,
`rollback_config` succeeds and leaves the history store exactly as it was:
no `ConfigHistory` entry is appended. -/
theorem c3_rollback_leaves_history (request : ConfigRollbackRequest)
    (changed_by : String) (now : Int) (rid1 sid1 rid2 sid2 nh : Nat)
    (store : List ConfigHistory)
    (_h : request.apply_immediately = false) :
    ∃ resp, rollback_config request changed_by now rid1 sid1 rid2 sid2 nh store =
      .ok (resp, store) :=
  ⟨_, rfl⟩

/-- Concrete instance of `c3_rollback_leaves_history`. -/
theorem c3_rollback_leaves_history_witness :
    ∃ resp, rollback_config
        { history_id := 7, comment := "undo", apply_immediately := false }
        "operator" 0 1 2 3 4 5 [] = .ok (resp, []) :=
  c3_rollback_leaves_history
    { history_id := 7, comment := "undo", apply_immediately := false }
    "operator" 0 1 2 3 4 5 [] rfl

/-- Claim C4: deleting the absent path `/nonexistent` with `validate = true`
returns `Ok` with `success = true` — not the `NotFound` error the
specification requires — because `validate_config_deletion` is a stub. -/
theorem c4_delete_absent_path_ok :
    delete_config { path := "/nonexistent", validate := true } =
      .ok { success := true,
            message := "Configuration deleted at path: /nonexistent",
            changes_made := ["Deleted /nonexistent"] } ∧
    ∀ e : AppError,
      delete_config { path := "/nonexistent", validate := true } ≠ .error e :=
  ⟨rfl, fun _ h => Except.noConfusion h⟩

/-- Claim C5: the `bulk_config_change` loop processes the changes sequentially
in request order; with `stop_on_error = true` nothing after the first failure
is attempted — the result is the paths of the prior successes (still applied,
never reversed) plus that single failure, whatever changes follow; with
`stop_on_error = false` every change is attempted — each change lands in
exactly one of the two result lists, in order. `bulk_config_change` itself is
the loop `bulkGo` instantiated with `set_config`. -/
theorem c5_bulk_stop_on_error
    (f : ConfigSetRequest → Except AppError ConfigSetResponse)
    (pre rest : List ConfigSetRequest) (change : ConfigSetRequest)
    (e : AppError)
    (hpre : ∀ x ∈ pre, isOkE (f x) = true) (hc : f change = .error e) :
    bulkGo f true (pre ++ change :: rest) =
      (pre.map ConfigSetRequest.path,
       [{ path := change.path, error := e.display }]) ∧
    (∀ changes : List ConfigSetRequest,
      (bulkGo f false changes).1 =
        ((changes.filter fun c => isOkE (f c)).map ConfigSetRequest.path) ∧
      (bulkGo f false changes).2.map ConfigChangeFailure.path =
        ((changes.filter fun c => !isOkE (f c)).map ConfigSetRequest.path) ∧
      (bulkGo f false changes).1.length + (bulkGo f false changes).2.length =
        changes.length) ∧
    (∀ (request : BulkConfigChangeRequest) (changed_by : String),
      ∃ resp, bulk_config_change request changed_by = .ok resp ∧
        resp.applied = (bulkGo (fun c => set_config
          { path := c.path, value := c.value, validate := request.validate })
          request.stop_on_error request.changes).1 ∧
        resp.failed = (bulkGo (fun c => set_config
          { path := c.path, value := c.value, validate := request.validate })
          request.stop_on_error request.changes).2) := by
  have key : ∀ p : List ConfigSetRequest, (∀ x ∈ p, isOkE (f x) = true) →
      bulkGo f true (p ++ change :: rest) =
        (p.map ConfigSetRequest.path,
         [{ path := change.path, error := e.display }]) := by
    intro p
    induction p with
    | nil => intro _; simp [bulkGo, hc]
    | cons x xs ih =>
      intro hx
      have hxok : isOkE (f x) = true := hx x (by simp)
      obtain ⟨r, hr⟩ : ∃ r, f x = .ok r := by
        cases hfx : f x with
        | ok r => exact ⟨r, rfl⟩
        | error e2 => rw [hfx] at hxok; simp [isOkE] at hxok
      simp [bulkGo, hr, ih (fun y hy => hx y (List.mem_cons_of_mem _ hy))]
  refine ⟨key pre hpre, ?_, ?_⟩
  · intro changes
    induction changes with
    | nil => simp [bulkGo]
    | cons c cs ih =>
      obtain ⟨ih1, ih2, ih3⟩ := ih
      cases hfc : f c with
      | ok r =>
        refine ⟨?_, ?_, ?_⟩
        · simp [bulkGo, hfc, isOkE, ih1]
        · simp [bulkGo, hfc, isOkE, ih2]
        · simp [bulkGo, hfc]
          omega
      | error e2 =>
        refine ⟨?_, ?_, ?_⟩
        · simp [bulkGo, hfc, isOkE, ih1]
        · simp [bulkGo, hfc, isOkE, ih2]
        · simp [bulkGo, hfc]
          omega
  · intro request changed_by
    exact ⟨_, rfl, rfl, rfl⟩

/-- Per-change result function used to instantiate `c5_bulk_stop_on_error`:
fails exactly on the path `bad`. -/
def wF : ConfigSetRequest → Except AppError ConfigSetResponse := fun c =>
  if c.path = "bad" then .error (.Validation "boom")
  else .ok { success := true, message := "ok", changes_made := [] }

/-- Concrete instance of `c5_bulk_stop_on_error`: of `[ok, fails, ok]` with
`stop_on_error = true`, only the first change is applied, the second fails,
and the third is never attempted. -/
theorem c5_bulk_stop_on_error_witness :
    bulkGo wF true
      ([{ path := "first", value := some "1", validate := false }] ++
        { path := "bad", value := none, validate := false } ::
        [{ path := "third", value := none, validate := false }]) =
      (["first"], [{ path := "bad", error := "Validation error: boom" }]) := by
  have h := c5_bulk_stop_on_error wF
    [{ path := "first", value := some "1", validate := false }]
    [{ path := "third", value := none, validate := false }]
    { path := "bad", value := none, validate := false }
    (.Validation "boom") (by decide) rfl
  exact h.1.trans (by decide)

/-- Claim C6 (amended): `search_in_tree` returns exactly the nodes of the
tree whose path (`Path`), value (`Value`) or either (`Both`) contains the
search term as a case-insensitive substring, and the result is ordered
root-first with each node's children visited in reverse canonical order
(last child first), so identical input trees always yield the identical
result list. -/
theorem c6_search_filters_reverse_preorder (node : ConfigNode)
    (request : ConfigSearchRequest) :
    search_in_tree node request =
      (revPreorder node).filter
        (nodeMatches request.search_type (toLowerStr request.search_term)) ∧
    ∀ x, x ∈ search_in_tree node request ↔
      x ∈ revPreorder node ∧
        nodeMatches request.search_type (toLowerStr request.search_term) x
          = true := by
  have h1 : search_in_tree node request =
      (revPreorder node).filter
        (nodeMatches request.search_type (toLowerStr request.search_term)) := by
    show searchLoop (nodeMatches request.search_type (toLowerStr request.search_term))
        node.children.reverse
        (if nodeMatches request.search_type (toLowerStr request.search_term) node
          then [node] else []) = _
    rw [searchLoop_spec, ← revPreorderList_eq_flat, revPreorder_eq]
    by_cases h : nodeMatches request.search_type (toLowerStr request.search_term)
        node = true <;>
      simp [h, List.filter_cons]
  refine ⟨h1, fun x => ?_⟩
  rw [h1, List.mem_filter]

/-- Claim C6 as stated is false: on the concrete tree `exTree` (root with
children `/a`, `/b` in canonical order) the path search for `/` returns the
root followed by `/b` then `/a` — not the depth-first pre-order over
canonical child order, which would list `/a` before `/b`. -/
theorem c6_counterexample :
    search_in_tree exTree exReq ≠
      (specPreorder exTree).filter
        (nodeMatches exReq.search_type (toLowerStr exReq.search_term)) := by
  have e1 : search_in_tree exTree exReq = [exTree, exB, exA] := by
    show searchLoop (nodeMatches exReq.search_type (toLowerStr exReq.search_term))
        exTree.children.reverse
        (if nodeMatches exReq.search_type (toLowerStr exReq.search_term) exTree
          then [exTree] else []) = _
    rw [searchLoop_spec]
    rfl
  intro h
  rw [e1] at h
  exact absurd (congrArg (List.map ConfigNode.path) h) (by decide)

/-- Claim C7: for every snapshot `S`, diffing `S` against itself yields empty
additions, deletions and modifications. -/
theorem c7_self_diff_empty (S : ConfigSnapshot) :
    calculate_diff S.config_tree S.config_tree = .ok ([], [], []) := rfl

/-- Claim C8: for all trees, the additions of `calculate_diff a b` equal the
deletions of `calculate_diff b a`, and vice versa. -/
theorem c8_diff_symmetry (a b : ConfigNode)
    (ra rb : List ConfigChange × List ConfigChange × List ConfigChange)
    (ha : calculate_diff a b = .ok ra) (hb : calculate_diff b a = .ok rb) :
    ra.1 = rb.2.1 ∧ ra.2.1 = rb.1 := by
  injection ha with h1
  injection hb with h2
  subst h1
  subst h2
  exact ⟨rfl, rfl⟩

/-- Concrete instance of `c8_diff_symmetry` at the example snapshot trees. -/
theorem c8_diff_symmetry_witness :
    calculate_diff exTreeA exTreeB = Except.ok ([], [], []) ∧
    ((([], [], []) :
        List ConfigChange × List ConfigChange × List ConfigChange).1 =
      (([], [], []) :
        List ConfigChange × List ConfigChange × List ConfigChange).2.1 ∧
     (([], [], []) :
        List ConfigChange × List ConfigChange × List ConfigChange).2.1 =
      (([], [], []) :
        List ConfigChange × List ConfigChange × List ConfigChange).1) :=
  ⟨rfl, c8_diff_symmetry exTreeA exTreeB ([], [], []) ([], [], []) rfl rfl⟩

/-- Claim C9: `set_config` always succeeds — for every request (any path, any
value, `validate` true or false) it returns `Ok` with `success = true` and a
one-element `changes_made` list; it never returns an error. -/
theorem c9_set_config_always_ok (request : ConfigSetRequest) :
    set_config request = .ok
      { success := true,
        message := "Configuration set at path: " ++ request.path,
        changes_made :=
          ["Set " ++ request.path ++ " to " ++ optionDebug request.value] } := by
  cases h : request.validate <;> simp [set_config, validate_config_path, h]

/-- Claim C10: for every limit, `get_history` returns `Ok` with an empty
history list and `total_count = 0`. -/
theorem c10_get_history_always_empty (limit : Option Nat) :
    get_history limit = .ok { history := [], total_count := 0 } := rfl

end ConfigService
